import Mathlib

/-!
Verification of the pixel-processing and HTTP-route logic of the
AI-image-gen repository (an AI outfit generator web application).

The development shallowly embeds, in Lean:

* the absolute-threshold background classifier and the transparent /
  white-background compositors of `src/lib/utils.ts`
  (`convertToTransparentPNG`, `convertToWhiteBackgroundPNG`);
* the edge-sampled background estimator and compositor of
  `removePersonBackground` in `src/lib/utils.ts`;
* the request-validation and provider-error-mapping logic of the two
  API routes `src/app/api/generate-outfit/route.ts` and
  `src/app/api/remove-background/route.ts`.

Numbers: JavaScript numbers are IEEE doubles; every arithmetic step of
the embedded code operates on small integers (channel sums bounded by
765, sample sums bounded by 200 * 255) or on divisions whose operands
are small integers, where double arithmetic is exact or whose
comparisons against the constant thresholds 0.9 and 0.85 cannot be
perturbed by rounding (the nearest attainable values are at distance
at least 1/765 from the threshold while rounding errors are below
1e-13).  These quantities are therefore modelled with `Nat` and `ℚ`.
The one place JavaScript produces `NaN` (dividing by an empty sample
count in `removePersonBackground`) is modelled with `Option`, `none`
standing for the NaN result, which compares unequal to every number.
-/

set_option autoImplicit false

/-! ## String primitives

JavaScript `String.prototype.includes` and the two regular expressions
used by the routes, embedded as executable functions on `List Char`. -/

/-- `beginsList pat s` is true when the pattern `pat` is a prefix of `s`
(character-wise); this is the anchor step of substring search. -/
def beginsList : List Char → List Char → Bool
  | [], _ => true
  | _ :: _, [] => false
  | c :: cs, d :: ds => c == d && beginsList cs ds

/-- `occursList pat s` is true when `pat` occurs contiguously somewhere in
`s`; embeds JavaScript `s.includes(pat)`. -/
def occursList (pat : List Char) : List Char → Bool
  | [] => pat.isEmpty
  | c :: rest => beginsList pat (c :: rest) || occursList pat rest

/-- `strContains s pat` embeds the JavaScript expression
`s.includes(pat)` from the error-classification chains of the routes. -/
def strContains (s pat : String) : Bool :=
  occursList pat.data s.data

/-! ## Pixel model

`src/lib/utils.ts` manipulates `ImageData.data`, a flat RGBA byte
array; four consecutive bytes form one pixel. -/

/-- One RGBA pixel of a decoded bitmap; each channel is an 8-bit value
(`0`–`255`) in a decoded image, represented as `Nat`. -/
structure Pixel where
  r : Nat
  g : Nat
  b : Nat
  a : Nat
  deriving DecidableEq, Repr

/-- Brightness of a pixel, `(r + g + b) / 3 / 255` as computed at
`src/lib/utils.ts:228`, `:353` and `:500`; exact in doubles for channel
sums up to 765, hence modelled in `ℚ`. -/
def brightness (r g b : Nat) : ℚ :=
  ((r : ℚ) + (g : ℚ) + (b : ℚ)) / 3 / 255

/-- The `isWhite` test of `src/lib/utils.ts:231` and `:356`, generalised
over the `whiteThreshold` constant (the source fixes it to 240): all
three channels strictly above the threshold. -/
def isWhitePixel (whiteThreshold r g b : Nat) : Bool :=
  decide (whiteThreshold < r) && decide (whiteThreshold < g) &&
    decide (whiteThreshold < b)

/-- The `isLight` test of `src/lib/utils.ts:232` and `:357`:
`brightness > brightnessThreshold` with `brightnessThreshold = 0.9`. -/
def isLightPixel (r g b : Nat) : Bool :=
  decide ((9 : ℚ) / 10 < brightness r g b)

/-- The absolute-threshold background classifier of
`convertToTransparentPNG` and `convertToWhiteBackgroundPNG`
(`src/lib/utils.ts:231`–`:235` and `:356`–`:360`, identical code),
generalised over the `whiteThreshold` constant:
`isWhite || isLight`. -/
def isBackgroundAbsParam (whiteThreshold r g b : Nat) : Bool :=
  isWhitePixel whiteThreshold r g b || isLightPixel r g b

/-- The classifier exactly as instantiated in the source, with
`whiteThreshold = 240` (`src/lib/utils.ts:217` and `:342`). -/
def isBackgroundAbs (r g b : Nat) : Bool :=
  isBackgroundAbsParam 240 r g b

/-- The per-pixel action of the loop of `convertToTransparentPNG`
(`src/lib/utils.ts:221`–`:238`): background pixels get alpha 0, other
pixels are untouched. -/
def transparentTransformPixel (p : Pixel) : Pixel :=
  if isBackgroundAbs p.r p.g p.b then { p with a := 0 } else p

/-- The per-pixel action of the loop of `convertToWhiteBackgroundPNG`
(`src/lib/utils.ts:346`–`:366`): background pixels are overwritten with
opaque white, other pixels are untouched. -/
def whiteTransformPixel (p : Pixel) : Pixel :=
  if isBackgroundAbs p.r p.g p.b then ⟨255, 255, 255, 255⟩ else p

/-! ## Edge-sampled background removal

`removePersonBackground` (`src/lib/utils.ts:420`–`:551`): estimate the
background color by averaging samples from the four borders, then clear
the alpha of pixels close to that color or very bright. -/

/-- A decoded bitmap: dimensions plus a pixel lookup.  The source
indexes the flat RGBA array as `data[(x + y * width) * 4 + k]`; the
embedding keeps the two-dimensional view `px x y`. -/
structure Bitmap where
  width : Nat
  height : Nat
  px : Nat → Nat → Pixel

/-- The RGB triple of a pixel, as pushed into `edgeSamples`
(`src/lib/utils.ts:455` etc.). -/
def pixelRGB (p : Pixel) : Nat × Nat × Nat :=
  (p.r, p.g, p.b)

/-- `sampleSize` of `src/lib/utils.ts:448`:
`Math.min(50, Math.floor(width / 10), Math.floor(height / 10))`. -/
def sampleSize (width height : Nat) : Nat :=
  min 50 (min (width / 10) (height / 10))

/-- The `edgeSamples` array built by the loop of
`src/lib/utils.ts:451`–`:469`: for each `i < sampleSize`, the pixels at
`(topX, 0)`, `(topX, height-1)`, `(0, leftY)` and `(width-1, leftY)`
where `topX = Math.floor((i / sampleSize) * width)` and
`leftY = Math.floor((i / sampleSize) * height)`; the float floor is the
exact integer floor `i * width / sampleSize` for these operand sizes. -/
def edgeSamples (bm : Bitmap) : List (Nat × Nat × Nat) :=
  let n := sampleSize bm.width bm.height
  (List.range n).flatMap fun i =>
    let topX := i * bm.width / n
    let leftY := i * bm.height / n
    [pixelRGB (bm.px topX 0),
     pixelRGB (bm.px topX (bm.height - 1)),
     pixelRGB (bm.px 0 leftY),
     pixelRGB (bm.px (bm.width - 1) leftY)]

/-- The average background color of `src/lib/utils.ts:472`–`:480`:
per-channel sum over `edgeSamples` divided by `edgeSamples.length`.
When the sample list is empty the source divides 0 by 0, producing
`NaN` (which is unequal to every number); that case is modelled as
`none`. -/
def avgColor (samples : List (Nat × Nat × Nat)) : Option (ℚ × ℚ × ℚ) :=
  if samples.length = 0 then none
  else
    some (((samples.map fun s => (s.1 : ℚ)).sum / (samples.length : ℚ)),
          ((samples.map fun s => (s.2.1 : ℚ)).sum / (samples.length : ℚ)),
          ((samples.map fun s => (s.2.2 : ℚ)).sum / (samples.length : ℚ)))

/-- The background test of the pixel loop of `removePersonBackground`
(`src/lib/utils.ts:487`–`:503`): Euclidean color distance from the
average below `colorThreshold = 40`, or brightness above
`brightnessThreshold = 0.85`.  `Math.sqrt(d) < 40` is stated as
`d < 1600` (equivalent for the attainable operand values). -/
def rpbIsBackground (avg : ℚ × ℚ × ℚ) (r g b : Nat) : Bool :=
  decide (((r : ℚ) - avg.1) ^ 2 + ((g : ℚ) - avg.2.1) ^ 2 +
      ((b : ℚ) - avg.2.2) ^ 2 < 1600) ||
    decide ((17 : ℚ) / 20 < brightness r g b)

/-- The per-pixel action of the loop of `removePersonBackground`
(`src/lib/utils.ts:487`–`:509`): background pixels get alpha 0, other
pixels are untouched. -/
def rpbTransformPixel (avg : ℚ × ℚ × ℚ) (p : Pixel) : Pixel :=
  if rpbIsBackground avg p.r p.g p.b then { p with a := 0 } else p

/-! ## API route embedding

Shared helpers of `src/app/api/generate-outfit/route.ts` and
`src/app/api/remove-background/route.ts`.  `cleanBase64`,
`isValidBase64`, `normalizeImageInput` and `validateMimeType` are
textually identical in the two route files and are embedded once. -/

/-- A lowercase ASCII letter, the character class `[a-z]` of the
data-URL-stripping regular expression. -/
def isLowerAsciiLetter (c : Char) : Bool :=
  decide ('a' ≤ c) && decide (c ≤ 'z')

/-- Attempt to match the anchored regular expression
`^data:image\/[a-z]+;base64,` against a character list and return the
remainder after the match. -/
def dropDataUrlJunk (cs : List Char) : Option (List Char) :=
  if beginsList "data:image/".data cs then
    let after := cs.drop 11
    let letters := after.takeWhile isLowerAsciiLetter
    let rest := after.drop letters.length
    if letters.length ≠ 0 && beginsList ";base64,".data rest then
      some (rest.drop 8)
    else none
  else none

/-- `cleanBase64` of the routes
(`src/app/api/generate-outfit/route.ts:17`,
`src/app/api/remove-background/route.ts:6`):
`base64String.replace(/^data:image\/[a-z]+;base64,/, '')`. -/
def cleanBase64 (base64String : String) : String :=
  match dropDataUrlJunk base64String.data with
  | some rest => String.mk rest
  | none => base64String

/-- A character of the class `[A-Za-z0-9+/]` of the base64-shape
regular expression. -/
def isBase64MainChar (c : Char) : Bool :=
  (decide ('A' ≤ c) && decide (c ≤ 'Z')) ||
    (decide ('a' ≤ c) && decide (c ≤ 'z')) ||
    (decide ('0' ≤ c) && decide (c ≤ '9')) ||
    c == '+' || c == '/'

/-- The test `/^[A-Za-z0-9+/]*={0,2}$/.test(cleaned)`: a run of base64
characters followed by at most two `=`.  Since `=` is not in the main
class, the maximal main-character prefix is the only possible split. -/
def isBase64Shape (cs : List Char) : Bool :=
  let rest := cs.dropWhile isBase64MainChar
  rest.all (· == '=') && decide (rest.length ≤ 2)

/-- `isValidBase64` of the routes
(`src/app/api/generate-outfit/route.ts:23`,
`src/app/api/remove-background/route.ts:11`): strip the data-URL
prefix, then require the base64 shape and nonzero length. -/
def isValidBase64 (str : String) : Bool :=
  let cleaned := cleanBase64 str
  isBase64Shape cleaned.data && decide (cleaned.length > 0)

/-- An image field of a request body: the old format is a bare base64
string, the new format an object with `data` and optional `mimeType`
(`none` models an absent JavaScript property; `some ""` is possible and
falsy). -/
inductive ImagePayload where
  | str (s : String)
  | obj (data : String) (mimeType : Option String)
  deriving DecidableEq, Repr

/-- A normalized image input: `data` and `mimeType` strings (an empty
`data` is falsy and fails the presence check, like an absent one). -/
structure ImageInput where
  data : String
  mimeType : String
  deriving DecidableEq, Repr

/-- JavaScript `x || d` on an optional string: absent and empty strings
are falsy and give the default. -/
def jsOrString (o : Option String) (d : String) : String :=
  match o with
  | none => d
  | some s => if s = "" then d else s

/-- `normalizeImageInput` of the routes
(`src/app/api/generate-outfit/route.ts:50`–`:63`,
`src/app/api/remove-background/route.ts:74`–`:87`): a bare string gets
MIME type `image/jpeg`; an object keeps its `mimeType` with fallback
`input.mimeType || 'image/jpeg'`. -/
def normalizeImageInput : ImagePayload → ImageInput
  | .str s => ⟨s, "image/jpeg"⟩
  | .obj d m => ⟨d, jsOrString m "image/jpeg"⟩

/-- `supportedMimeTypes` of the routes
(`src/app/api/generate-outfit/route.ts:101`,
`src/app/api/remove-background/route.ts:109`). -/
def supportedMimeTypes : List String :=
  ["image/jpeg", "image/jpg", "image/png", "image/webp"]

/-- `validateMimeType` of the routes
(`src/app/api/generate-outfit/route.ts:102`–`:109`,
`src/app/api/remove-background/route.ts:110`–`:116`): normalize
`image/jpg` to `image/jpeg`, fall back to `image/jpeg` for anything not
in `supportedMimeTypes`. -/
def validateMimeType (mimeType : String) : String :=
  let normalized := if mimeType = "image/jpg" then "image/jpeg" else mimeType
  if supportedMimeTypes.contains normalized then normalized else "image/jpeg"

/-- The error-message-to-HTTP-status chain of the generate-outfit route
(`src/app/api/generate-outfit/route.ts:158`–`:201`), returning the
status and the JSON `error` body. -/
def classifyApiErrorGO (errorMessage : String) : Nat × String :=
  if strContains errorMessage "quota" || strContains errorMessage "QUOTA_EXCEEDED" then
    (429, "API quota exceeded. Please try again later or check your Google AI API quota.")
  else if strContains errorMessage "safety" || strContains errorMessage "SAFETY" then
    (400, "Content was blocked by safety filters. Please try different images.")
  else if strContains errorMessage "invalid" || strContains errorMessage "INVALID_ARGUMENT" then
    (400, "Invalid request. Please check your images and try again.")
  else if strContains errorMessage "permission" || strContains errorMessage "PERMISSION_DENIED" then
    (403, "API permission denied. Please check your API key configuration.")
  else if strContains errorMessage "timeout" || strContains errorMessage "DEADLINE_EXCEEDED" then
    (504, "Request timed out. The API is taking too long to respond. Please try again.")
  else
    (500, "API error: " ++ errorMessage ++ ". Please try again later.")

/-- The error-message-to-HTTP-status chain of the remove-background
route (`src/app/api/remove-background/route.ts:159`–`:201`); identical
to the generate-outfit chain except for the 403 body text. -/
def classifyApiErrorRB (errorMessage : String) : Nat × String :=
  if strContains errorMessage "quota" || strContains errorMessage "QUOTA_EXCEEDED" then
    (429, "API quota exceeded. Please try again later or check your Google AI API quota.")
  else if strContains errorMessage "safety" || strContains errorMessage "SAFETY" then
    (400, "Content was blocked by safety filters. Please try different images.")
  else if strContains errorMessage "invalid" || strContains errorMessage "INVALID_ARGUMENT" then
    (400, "Invalid request. Please check your images and try again.")
  else if strContains errorMessage "permission" || strContains errorMessage "PERMISSION_DENIED" then
    (403, "API permission denied. Please check your API key or Google Cloud credentials configuration.")
  else if strContains errorMessage "timeout" || strContains errorMessage "DEADLINE_EXCEEDED" then
    (504, "Request timed out. The API is taking too long to respond. Please try again.")
  else
    (500, "API error: " ++ errorMessage ++ ". Please try again later.")

/-! ## Provider call and response model

The call `ai.models.generateContent(...)` is external; its outcome is a
parameter of the handler: either a thrown error carrying a message, or
a response value.  The response shape follows the fields the routes
read: `candidates`, `finishReason`, `content.parts`, `part.text`,
`part.inlineData.{data, mimeType}`. -/

/-- One element of `content.parts` of a provider candidate (also reused
for the request `contents` the routes build): an optional `text` field
and an optional `inlineData` field carrying `(data, mimeType)`. -/
structure GenPart where
  text : Option String
  inlineData : Option (String × String)
  deriving DecidableEq, Repr

/-- The `content` field of a provider candidate. -/
structure GenContent where
  parts : List GenPart
  deriving DecidableEq, Repr

/-- One provider candidate: the routes read `finishReason` and
`content`. -/
structure Candidate where
  finishReason : Option String
  content : Option GenContent
  deriving DecidableEq, Repr

/-- A provider response: the routes read only `candidates`; `none`
models an absent field. -/
structure GenResponse where
  candidates : Option (List Candidate)
  deriving DecidableEq, Repr

/-- Outcome of the external `generateContent` call: a thrown error with
message `msg`, or a returned response. -/
inductive ApiOutcome where
  | fail (msg : String)
  | ok (resp : GenResponse)
  deriving DecidableEq, Repr

/-- The deployment environment: whether `GOOGLE_AI_API_KEY` is set, and
whether the Vertex variables (`GOOGLE_CLOUD_PROJECT` and
`GOOGLE_CLOUD_LOCATION`) are set. -/
structure Env where
  hasGoogleKey : Bool
  hasVertex : Bool
  deriving DecidableEq, Repr

/-- An HTTP response as the routes produce it: status code and the
body payload (the `error` message, or on success the image URL). -/
structure HttpResponse where
  status : Nat
  body : String
  deriving DecidableEq, Repr

/-- The 500 body both routes send when the provider response has no
candidates (`src/app/api/generate-outfit/route.ts:209`,
`src/app/api/remove-background/route.ts:209`). -/
def noCandidatesMsg : String :=
  "No response from AI model. The model may be unavailable or the request was blocked. Please try again."

/-- The 400 body both routes send on a safety finish reason. -/
def safetyBlockMsg : String :=
  "Content was blocked by safety filters. Please try different images."

/-- First match of the regular expression `/https?:\/\/[^\s]+/` at the
start of a character list: greedy `s?`, then `://`, then one or more
non-whitespace characters. -/
def urlMatchAt (s : List Char) : Option String :=
  if beginsList "https://".data s then
    let tail := (s.drop 8).takeWhile (fun c => !c.isWhitespace)
    if tail.length = 0 then none else some (String.mk ("https://".data ++ tail))
  else if beginsList "http://".data s then
    let tail := (s.drop 7).takeWhile (fun c => !c.isWhitespace)
    if tail.length = 0 then none else some (String.mk ("http://".data ++ tail))
  else none

/-- Leftmost match of `/https?:\/\/[^\s]+/` in a character list;
embeds `part.text.match(...)`. -/
def findUrlList : List Char → Option String
  | [] => none
  | c :: rest =>
    match urlMatchAt (c :: rest) with
    | some u => some u
    | none => findUrlList rest

/-- Leftmost URL match in a string
(`src/app/api/generate-outfit/route.ts:237`). -/
def findUrl (t : String) : Option String :=
  findUrlList t.data

/-- The part-scanning loop of the generate-outfit route
(`src/app/api/generate-outfit/route.ts:232`–`:251`): first part with a
truthy `text` containing a URL wins with that URL; a part with falsy
`text` but present `inlineData` wins with a data URL; a part with
truthy `text` but no URL match falls through to the next part. -/
def extractImageUrlGO : List GenPart → Option String
  | [] => none
  | p :: rest =>
    match p.text with
    | some t =>
      if t ≠ "" then
        match findUrl t with
        | some u => some u
        | none => extractImageUrlGO rest
      else
        match p.inlineData with
        | some (d, m) => some ("data:" ++ m ++ ";base64," ++ d)
        | none => extractImageUrlGO rest
    | none =>
      match p.inlineData with
      | some (d, m) => some ("data:" ++ m ++ ";base64," ++ d)
      | none => extractImageUrlGO rest

/-- The part-scanning loop of the remove-background route
(`src/app/api/remove-background/route.ts:232`–`:253`): same shape, but
the data-URL MIME is forced to `image/png` for the transparent
background type, else `part.inlineData.mimeType || 'image/png'`. -/
def extractImageUrlRB (backgroundType : String) : List GenPart → Option String
  | [] => none
  | p :: rest =>
    match p.text with
    | some t =>
      if t ≠ "" then
        match findUrl t with
        | some u => some u
        | none => extractImageUrlRB backgroundType rest
      else
        match p.inlineData with
        | some (d, m) =>
          let outputMimeType :=
            if backgroundType = "transparent" then "image/png"
            else if m = "" then "image/png" else m
          some ("data:" ++ outputMimeType ++ ";base64," ++ d)
        | none => extractImageUrlRB backgroundType rest
    | none =>
      match p.inlineData with
      | some (d, m) =>
        let outputMimeType :=
          if backgroundType = "transparent" then "image/png"
          else if m = "" then "image/png" else m
        some ("data:" ++ outputMimeType ++ ";base64," ++ d)
      | none => extractImageUrlRB backgroundType rest

/-! ## The generate-outfit route handler -/

/-- The request body of the generate-outfit route as the handler reads
it: `topImage` and `bottomImage` (accessing a missing one would crash
the handler; the embedding assumes both fields exist) and an optional
`personImage`. -/
structure GenRequest where
  topImage : ImagePayload
  bottomImage : ImagePayload
  personImage : Option ImagePayload
  deriving DecidableEq, Repr

/-- JavaScript truthiness of an image payload value: the empty string
is falsy, every other string and every object is truthy.  Used by
`personImageInput ? ... : null`
(`src/app/api/generate-outfit/route.ts:68`). -/
def payloadTruthy : ImagePayload → Bool
  | .str s => decide (s ≠ "")
  | .obj _ _ => true

/-- The normalized person image of the generate-outfit route: `null`
when the field is absent or falsy. -/
def personOpt (req : GenRequest) : Option ImageInput :=
  match req.personImage with
  | none => none
  | some p => if payloadTruthy p then some (normalizeImageInput p) else none

/-- The fixed prompt of the generate-outfit route
(`src/app/api/generate-outfit/route.ts:112`). -/
def outfitPrompt : String :=
  "Create a new image by combining the elements from the provided images. Take the top clothing item from image 1 and the bottom clothing item from image 2, and place them naturally onto the body in image 3 so it looks like the person is wearing the selected outfit. Fit to body shape and pose, preserve garment proportions and textures, match lighting and shadows, handle occlusion by hair and arms. CRITICAL: The background must be completely white (#FFFFFF) - do not use black, transparent, or any other background color. Replace any existing background with solid white. Do not change the person identity or add accessories."

/-- The `contents` array built by the generate-outfit route
(`src/app/api/generate-outfit/route.ts:115`–`:144`): the optional
person image, then the top and bottom images — each with cleaned base64
data and validated MIME type — then the prompt text. -/
def buildContentsGO (req : GenRequest) : List GenPart :=
  let topImage := normalizeImageInput req.topImage
  let bottomImage := normalizeImageInput req.bottomImage
  (match personOpt req with
   | some p => [⟨none, some (cleanBase64 p.data, validateMimeType p.mimeType)⟩]
   | none => []) ++
  [⟨none, some (cleanBase64 topImage.data, validateMimeType topImage.mimeType)⟩,
   ⟨none, some (cleanBase64 bottomImage.data, validateMimeType bottomImage.mimeType)⟩,
   ⟨some outfitPrompt, none⟩]

/-- Response processing of the generate-outfit route after a successful
provider call (`src/app/api/generate-outfit/route.ts:204`–`:272`). -/
def processResponseGO (resp : GenResponse) : HttpResponse :=
  match resp.candidates with
  | none => ⟨500, noCandidatesMsg⟩
  | some [] => ⟨500, noCandidatesMsg⟩
  | some (c :: _) =>
    if c.finishReason = some "SAFETY" then ⟨400, safetyBlockMsg⟩
    else
      match (match c.content with
             | some ct => extractImageUrlGO ct.parts
             | none => none) with
      | some url => ⟨200, url⟩
      | none =>
        ⟨500, "Failed to generate outfit image - the API response did not contain an image. Please try again."⟩

/-- The `POST` handler of `src/app/api/generate-outfit/route.ts`,
parameterised by the environment and by the outcome of the external
provider call. -/
def generateOutfitPOST (env : Env) (req : GenRequest) (api : ApiOutcome) :
    HttpResponse :=
  if !env.hasGoogleKey then ⟨500, "GOOGLE_AI_API_KEY is not configured"⟩
  else
    let topImage := normalizeImageInput req.topImage
    let bottomImage := normalizeImageInput req.bottomImage
    if topImage.data = "" || bottomImage.data = "" then
      ⟨400, "Top and bottom images are required"⟩
    else if !isValidBase64 topImage.data then
      ⟨400, "Invalid top image format. Please upload a valid image."⟩
    else if !isValidBase64 bottomImage.data then
      ⟨400, "Invalid bottom image format. Please upload a valid image."⟩
    else if (match personOpt req with
             | some p => !isValidBase64 p.data
             | none => false) then
      ⟨400, "Invalid person image format. Please upload a valid image."⟩
    else
      match api with
      | .fail msg =>
        let res := classifyApiErrorGO (jsOrString (some msg) "Unknown API error")
        ⟨res.1, res.2⟩
      | .ok resp => processResponseGO resp

/-! ## The remove-background route handler -/

/-- The request body of the remove-background route: the image field,
the optional `backgroundType` and the optional custom color. -/
structure RBRequest where
  image : ImagePayload
  backgroundType : Option String
  customBackgroundColor : Option String
  deriving DecidableEq, Repr

/-- The prompt chosen by the `switch (backgroundType)` of the
remove-background route
(`src/app/api/remove-background/route.ts:121`–`:135`). -/
def promptRB (backgroundType : String) (customBackgroundColor : Option String) :
    String :=
  if backgroundType = "transparent" then
    "Remove the background from this image completely, making it transparent. Keep only the main subject(s) in the foreground. The output should have a transparent background (PNG format with alpha channel)."
  else if backgroundType = "white" then
    "Remove the background from this image and replace it with a solid white background (#FFFFFF). Keep only the main subject(s) in the foreground."
  else if backgroundType = "custom" then
    let bgColor := jsOrString customBackgroundColor "#FFFFFF"
    "Remove the background from this image and replace it with a solid " ++
      bgColor ++ " background. Keep only the main subject(s) in the foreground."
  else
    "Remove the background from this image completely, making it transparent. Keep only the main subject(s) in the foreground."

/-- The `contents` array built by the remove-background route
(`src/app/api/remove-background/route.ts:138`–`:146`): the image with
cleaned base64 data and validated MIME type, then the prompt text. -/
def buildContentsRB (req : RBRequest) : List GenPart :=
  let image := normalizeImageInput req.image
  let backgroundType := jsOrString req.backgroundType "transparent"
  [⟨none, some (cleanBase64 image.data, validateMimeType image.mimeType)⟩,
   ⟨some (promptRB backgroundType req.customBackgroundColor), none⟩]

/-- Response processing of the remove-background route after a
successful provider call
(`src/app/api/remove-background/route.ts:204`–`:267`). -/
def processResponseRB (backgroundType : String) (resp : GenResponse) :
    HttpResponse :=
  match resp.candidates with
  | none => ⟨500, noCandidatesMsg⟩
  | some [] => ⟨500, noCandidatesMsg⟩
  | some (c :: _) =>
    if c.finishReason = some "SAFETY" then ⟨400, safetyBlockMsg⟩
    else
      match (match c.content with
             | some ct => extractImageUrlRB backgroundType ct.parts
             | none => none) with
      | some url => ⟨200, url⟩
      | none =>
        ⟨500, "Failed to remove background - the API response did not contain an image. Please try again."⟩

/-- The `POST` handler of `src/app/api/remove-background/route.ts`,
parameterised by the environment and by the outcome of the external
provider call.  `initializeGenAI` throws when neither Vertex variables
nor an API key are configured; the outer catch turns that into the 500
configuration response
(`src/app/api/remove-background/route.ts:282`–`:287`). -/
def removeBackgroundPOST (env : Env) (req : RBRequest) (api : ApiOutcome) :
    HttpResponse :=
  if !(env.hasVertex || env.hasGoogleKey) then
    ⟨500, "API configuration error. Please check your environment variables."⟩
  else
    let image := normalizeImageInput req.image
    let backgroundType := jsOrString req.backgroundType "transparent"
    if image.data = "" then ⟨400, "Image is required"⟩
    else if !isValidBase64 image.data then
      ⟨400, "Invalid image format. Please upload a valid image."⟩
    else
      match api with
      | .fail msg =>
        let res := classifyApiErrorRB (jsOrString (some msg) "Unknown API error")
        ⟨res.1, res.2⟩
      | .ok resp => processResponseRB backgroundType resp

/-! ## Helper lemmas -/

theorem beginsList_append (p t : List Char) : beginsList p (p ++ t) = true := by
  induction p with
  | nil => rfl
  | cons c cs ih => simp [beginsList, ih]

theorem occursList_of_beginsList (p s : List Char) (h : beginsList p s = true) :
    occursList p s = true := by
  cases s with
  | nil =>
    cases p with
    | nil => rfl
    | cons c cs => simp [beginsList] at h
  | cons c rest => simp [occursList, h]

theorem occursList_append_left (p pre s : List Char)
    (h : occursList p s = true) : occursList p (pre ++ s) = true := by
  induction pre with
  | nil => exact h
  | cons c cs ih =>
    show occursList p (c :: (cs ++ s)) = true
    simp [occursList, ih]

theorem strContains_append_middle (a b msg : String) :
    strContains (a ++ msg ++ b) msg = true := by
  unfold strContains
  rw [String.data_append, String.data_append, List.append_assoc]
  exact occursList_append_left _ _ _
    (occursList_of_beginsList _ _ (beginsList_append _ _))

theorem length_edgeSamples (bm : Bitmap) :
    (edgeSamples bm).length = 4 * sampleSize bm.width bm.height := by
  unfold edgeSamples
  rw [List.length_flatMap]
  have hmap : ∀ l : List Nat,
      (l.map (List.length ∘ fun i =>
        let topX := i * bm.width / sampleSize bm.width bm.height
        let leftY := i * bm.height / sampleSize bm.width bm.height
        [pixelRGB (bm.px topX 0), pixelRGB (bm.px topX (bm.height - 1)),
         pixelRGB (bm.px 0 leftY),
         pixelRGB (bm.px (bm.width - 1) leftY)])).sum = 4 * l.length := by
    intro l
    induction l with
    | nil => simp
    | cons a t ih => simp only [List.map_cons, List.sum_cons, ih]; simp; omega
  rw [hmap, List.length_range]

/-! ## Claims about the absolute-threshold classifier and compositors -/

/-- C1: for every pixel, the absolute-threshold classifier used by
`convertToTransparentPNG` and `convertToWhiteBackgroundPNG` marks the
pixel as background if and only if all three channels exceed the
whiteness threshold 240, or the mean of the three channels
`(r + g + b) / 3 / 255` exceeds the brightness fraction `0.9`. -/
theorem absThreshold_classifier_iff (r g b : Nat) :
    isBackgroundAbs r g b = true ↔
      ((240 < r ∧ 240 < g ∧ 240 < b) ∨
        (9 : ℚ) / 10 < ((r : ℚ) + (g : ℚ) + (b : ℚ)) / 3 / 255) := by
  simp [isBackgroundAbs, isBackgroundAbsParam, isWhitePixel, isLightPixel,
    brightness, and_assoc]

theorem absThreshold_classifier_iff_witness :
    isBackgroundAbs 241 241 241 = true :=
  (absThreshold_classifier_iff 241 241 241).mpr
    (Or.inl ⟨by decide, by decide, by decide⟩)

/-- C4: the transparent-mode compositors of `convertToTransparentPNG`
and `removePersonBackground` set alpha to 0 on classified-background
pixels, leave every channel of foreground pixels unchanged, and never
modify any R, G or B value. -/
theorem compositor_alpha_only (p : Pixel) (avg : ℚ × ℚ × ℚ) :
    (transparentTransformPixel p).r = p.r ∧
    (transparentTransformPixel p).g = p.g ∧
    (transparentTransformPixel p).b = p.b ∧
    (transparentTransformPixel p).a =
      (if isBackgroundAbs p.r p.g p.b then 0 else p.a) ∧
    (rpbTransformPixel avg p).r = p.r ∧
    (rpbTransformPixel avg p).g = p.g ∧
    (rpbTransformPixel avg p).b = p.b ∧
    (rpbTransformPixel avg p).a =
      (if rpbIsBackground avg p.r p.g p.b then 0 else p.a) := by
  unfold transparentTransformPixel rpbTransformPixel
  by_cases h1 : isBackgroundAbs p.r p.g p.b <;>
    by_cases h2 : rpbIsBackground avg p.r p.g p.b <;>
      simp [h1, h2]

/-- C5: applying the transparent-background transform a second time
changes nothing on pixels already at alpha 0: if a pixel has alpha 0
after the first pass, the second pass returns it with all four
channels identical. -/
theorem transparent_idempotent_alpha0 (p : Pixel)
    (h : (transparentTransformPixel p).a = 0) :
    transparentTransformPixel (transparentTransformPixel p) =
      transparentTransformPixel p := by
  have key : ∀ q : Pixel, q.a = 0 → transparentTransformPixel q = q := by
    rintro ⟨r, g, b, a⟩ ha
    simp only at ha
    subst ha
    unfold transparentTransformPixel
    split <;> rfl
  exact key _ h

theorem transparent_idempotent_alpha0_witness :
    transparentTransformPixel (transparentTransformPixel ⟨255, 255, 255, 7⟩) =
      transparentTransformPixel ⟨255, 255, 255, 7⟩ :=
  transparent_idempotent_alpha0 ⟨255, 255, 255, 7⟩ (by decide)

/-- C6: with the brightness fraction fixed at 0.9 as in the source, the
absolute-threshold classifier marks a pixel with R = G = B = 255 as
background for every whiteness threshold at most 255. -/
theorem white255_always_background (whiteThreshold : Nat)
    (h : whiteThreshold ≤ 255) :
    isBackgroundAbsParam whiteThreshold 255 255 255 = true := by
  unfold isBackgroundAbsParam isLightPixel brightness
  rw [Bool.or_eq_true]
  right
  rw [decide_eq_true_iff]
  norm_num

theorem white255_always_background_witness :
    isBackgroundAbsParam 255 255 255 255 = true :=
  white255_always_background 255 (by decide)

/-! ## Claims about the edge-sampled background estimate -/

/-- A bitmap whose border pixels all carry the RGB triple `c`: every
pixel in the top row, bottom row, left column or right column. -/
def borderConstant (bm : Bitmap) (c : Nat × Nat × Nat) : Prop :=
  ∀ x y, x < bm.width → y < bm.height →
    (x = 0 ∨ x = bm.width - 1 ∨ y = 0 ∨ y = bm.height - 1) →
    pixelRGB (bm.px x y) = c

/-- A 2-by-2 bitmap every pixel of which is the color `(10, 20, 30)`. -/
def smallConstBitmap : Bitmap :=
  ⟨2, 2, fun _ _ => ⟨10, 20, 30, 255⟩⟩

/-- C2 counterexample: on a 2-by-2 bitmap of one constant color the
sample size is `min 50 (2/10) (2/10) = 0`, the edge-sample list is
empty, and the source divides 0 by 0, producing a NaN background
estimate (modelled `none`) — not the border color. -/
theorem edgeAvg_constantBorder_small_cex :
    borderConstant smallConstBitmap (10, 20, 30) ∧
      avgColor (edgeSamples smallConstBitmap) ≠
        some ((10 : ℚ), (20 : ℚ), (30 : ℚ)) := by
  constructor
  · intro x y _ _ _
    rfl
  · have h : avgColor (edgeSamples smallConstBitmap) = none := rfl
    rw [h]
    simp

/-- C2 (amended with the size precondition the sampling loop needs):
for every bitmap at least 10 pixels wide and 10 pixels high whose
border pixels all equal a constant color `c`, the per-channel
arithmetic mean over the edge samples of `removePersonBackground`
equals the corresponding channel of `c` exactly. -/
theorem edgeAvg_constantBorder_eq (bm : Bitmap) (c : Nat × Nat × Nat)
    (hw : 10 ≤ bm.width) (hh : 10 ≤ bm.height)
    (hc : borderConstant bm c) :
    avgColor (edgeSamples bm) =
      some ((c.1 : ℚ), (c.2.1 : ℚ), (c.2.2 : ℚ)) := by
  have hw0 : 0 < bm.width := lt_of_lt_of_le (by norm_num) hw
  have hh0 : 0 < bm.height := lt_of_lt_of_le (by norm_num) hh
  have hn : 0 < sampleSize bm.width bm.height := by
    unfold sampleSize
    exact lt_min (by norm_num)
      (lt_min (Nat.div_pos hw (by norm_num)) (Nat.div_pos hh (by norm_num)))
  have hmem : ∀ s ∈ edgeSamples bm, s = c := by
    intro s hs
    unfold edgeSamples at hs
    rw [List.mem_flatMap] at hs
    obtain ⟨i, hi, hs⟩ := hs
    rw [List.mem_range] at hi
    have htopX : i * bm.width / sampleSize bm.width bm.height < bm.width := by
      rw [Nat.div_lt_iff_lt_mul hn, mul_comm bm.width]
      exact Nat.mul_lt_mul_of_pos_right hi hw0
    have hleftY : i * bm.height / sampleSize bm.width bm.height < bm.height := by
      rw [Nat.div_lt_iff_lt_mul hn, mul_comm bm.height]
      exact Nat.mul_lt_mul_of_pos_right hi hh0
    simp only [List.mem_cons, List.mem_singleton, List.not_mem_nil,
      or_false] at hs
    rcases hs with h | h | h | h
    · rw [h]
      exact hc _ _ htopX hh0 (Or.inr (Or.inr (Or.inl rfl)))
    · rw [h]
      exact hc _ _ htopX (Nat.sub_lt hh0 Nat.one_pos)
        (Or.inr (Or.inr (Or.inr rfl)))
    · rw [h]
      exact hc _ _ hw0 hleftY (Or.inl rfl)
    · rw [h]
      exact hc _ _ (Nat.sub_lt hw0 Nat.one_pos) hleftY (Or.inr (Or.inl rfl))
  have hlen : (edgeSamples bm).length = 4 * sampleSize bm.width bm.height :=
    length_edgeSamples bm
  have hlen0 : (edgeSamples bm).length ≠ 0 := by
    rw [hlen]
    exact Nat.mul_ne_zero (by norm_num) (Nat.pos_iff_ne_zero.mp hn)
  have hrep : edgeSamples bm = List.replicate (edgeSamples bm).length c :=
    List.eq_replicate_of_mem hmem
  have hcast : ((edgeSamples bm).length : ℚ) ≠ 0 := Nat.cast_ne_zero.mpr hlen0
  unfold avgColor
  rw [if_neg hlen0]
  congr 1
  refine Prod.ext ?_ (Prod.ext ?_ ?_) <;>
    · rw [hrep]
      simp only [List.map_replicate, List.sum_replicate, List.length_replicate,
        nsmul_eq_mul]
      rw [mul_div_cancel_left₀ _ hcast]

/-- A 10-by-10 bitmap every pixel of which is the color `(1, 2, 3)`. -/
def tenConstBitmap : Bitmap :=
  ⟨10, 10, fun _ _ => ⟨1, 2, 3, 255⟩⟩

theorem edgeAvg_constantBorder_eq_witness :
    avgColor (edgeSamples tenConstBitmap) =
      some ((1 : ℚ), (2 : ℚ), (3 : ℚ)) :=
  edgeAvg_constantBorder_eq tenConstBitmap (1, 2, 3) (by decide) (by decide)
    (fun _ _ _ _ _ => rfl)

/-- C9: the divisor of the background-average computation of
`removePersonBackground` is the edge-sample count
`4 * min 50 (min (width / 10) (height / 10))`; for bitmaps at least 10
pixels in both dimensions the sample list is non-empty and the average
is defined, while for bitmaps narrower or shorter than 10 pixels the
sample list is empty and the divisor is zero. -/
theorem edgeSamples_count_spec (bm : Bitmap) :
    (edgeSamples bm).length =
      4 * min 50 (min (bm.width / 10) (bm.height / 10)) ∧
    (10 ≤ bm.width → 10 ≤ bm.height →
      edgeSamples bm ≠ [] ∧ (avgColor (edgeSamples bm)).isSome = true) ∧
    (bm.width < 10 ∨ bm.height < 10 → (edgeSamples bm).length = 0) := by
  have hlen : (edgeSamples bm).length = 4 * sampleSize bm.width bm.height :=
    length_edgeSamples bm
  refine ⟨hlen, fun hw hh => ?_, fun hsmall => ?_⟩
  · have hn : 0 < sampleSize bm.width bm.height := by
      unfold sampleSize
      exact lt_min (by norm_num)
        (lt_min (Nat.div_pos hw (by norm_num)) (Nat.div_pos hh (by norm_num)))
    have hlen0 : (edgeSamples bm).length ≠ 0 := by
      rw [hlen]
      exact Nat.mul_ne_zero (by norm_num) (Nat.pos_iff_ne_zero.mp hn)
    refine ⟨fun hne => hlen0 (by rw [hne]; rfl), ?_⟩
    unfold avgColor
    rw [if_neg hlen0]
    rfl
  · rw [hlen]
    unfold sampleSize
    rcases hsmall with hw | hh
    · rw [Nat.div_eq_of_lt hw]
      simp
    · rw [Nat.div_eq_of_lt hh]
      simp

theorem edgeSamples_count_spec_witness :
    edgeSamples tenConstBitmap ≠ [] ∧
      (avgColor (edgeSamples tenConstBitmap)).isSome = true :=
  (edgeSamples_count_spec tenConstBitmap).2.1 (by decide) (by decide)

/-! ## Claims about provider-error classification -/

/-- C3 counterexample: the substring checks run in a fixed order, so a
message containing both `quota` and `safety` is mapped to 429 by the
earlier quota rule, not to 400 as the per-substring reading of the
claim demands for a message containing `safety`. -/
theorem apiError_overlap_cex :
    strContains "quota safety" "safety" = true ∧
      (classifyApiErrorGO "quota safety").1 = 429 ∧
      (classifyApiErrorGO "quota safety").1 ≠ 400 ∧
      (classifyApiErrorRB "quota safety").1 = 429 := by
  refine ⟨by decide, by decide, ?_, by decide⟩
  decide

/-- C3 (amended to the first-match order the code implements): both
endpoints map a provider error message to an HTTP status by the first
matching substring group in the fixed order quota (429), safety (400),
invalid (400), permission (403), timeout (504); a message matching no
group yields 500 with the provider message included in the body. -/
theorem apiError_firstMatch_mapping (msg : String) :
    ((strContains msg "quota" || strContains msg "QUOTA_EXCEEDED") = true →
      (classifyApiErrorGO msg).1 = 429 ∧ (classifyApiErrorRB msg).1 = 429) ∧
    ((strContains msg "quota" || strContains msg "QUOTA_EXCEEDED") = false →
      (strContains msg "safety" || strContains msg "SAFETY") = true →
      (classifyApiErrorGO msg).1 = 400 ∧ (classifyApiErrorRB msg).1 = 400) ∧
    ((strContains msg "quota" || strContains msg "QUOTA_EXCEEDED") = false →
      (strContains msg "safety" || strContains msg "SAFETY") = false →
      (strContains msg "invalid" || strContains msg "INVALID_ARGUMENT") = true →
      (classifyApiErrorGO msg).1 = 400 ∧ (classifyApiErrorRB msg).1 = 400) ∧
    ((strContains msg "quota" || strContains msg "QUOTA_EXCEEDED") = false →
      (strContains msg "safety" || strContains msg "SAFETY") = false →
      (strContains msg "invalid" || strContains msg "INVALID_ARGUMENT") = false →
      (strContains msg "permission" || strContains msg "PERMISSION_DENIED") = true →
      (classifyApiErrorGO msg).1 = 403 ∧ (classifyApiErrorRB msg).1 = 403) ∧
    ((strContains msg "quota" || strContains msg "QUOTA_EXCEEDED") = false →
      (strContains msg "safety" || strContains msg "SAFETY") = false →
      (strContains msg "invalid" || strContains msg "INVALID_ARGUMENT") = false →
      (strContains msg "permission" || strContains msg "PERMISSION_DENIED") = false →
      (strContains msg "timeout" || strContains msg "DEADLINE_EXCEEDED") = true →
      (classifyApiErrorGO msg).1 = 504 ∧ (classifyApiErrorRB msg).1 = 504) ∧
    ((strContains msg "quota" || strContains msg "QUOTA_EXCEEDED") = false →
      (strContains msg "safety" || strContains msg "SAFETY") = false →
      (strContains msg "invalid" || strContains msg "INVALID_ARGUMENT") = false →
      (strContains msg "permission" || strContains msg "PERMISSION_DENIED") = false →
      (strContains msg "timeout" || strContains msg "DEADLINE_EXCEEDED") = false →
      (classifyApiErrorGO msg).1 = 500 ∧
      strContains (classifyApiErrorGO msg).2 msg = true ∧
      (classifyApiErrorRB msg).1 = 500 ∧
      strContains (classifyApiErrorRB msg).2 msg = true) := by
  unfold classifyApiErrorGO classifyApiErrorRB
  refine ⟨fun h1 => ?_, fun h1 h2 => ?_, fun h1 h2 h3 => ?_,
    fun h1 h2 h3 h4 => ?_, fun h1 h2 h3 h4 h5 => ?_, fun h1 h2 h3 h4 h5 => ?_⟩
  · simp [h1]
  · simp [h1, h2]
  · simp [h1, h2, h3]
  · simp [h1, h2, h3, h4]
  · simp [h1, h2, h3, h4, h5]
  · simp only [h1, h2, h3, h4, h5, Bool.false_eq_true, if_false]
    exact ⟨trivial, strContains_append_middle _ _ _, trivial,
      strContains_append_middle _ _ _⟩

theorem apiError_firstMatch_mapping_witness :
    (classifyApiErrorGO "QUOTA_EXCEEDED").1 = 429 ∧
      (classifyApiErrorRB "QUOTA_EXCEEDED").1 = 429 :=
  (apiError_firstMatch_mapping "QUOTA_EXCEEDED").1 (by decide)

/-! ## Claims about request validation and response shape -/

/-- C7: with credentials configured, a request whose image payload is
present but fails base64 validation gets a 400 response with a
non-empty error body from either generation endpoint — never a 500 —
regardless of the provider outcome. -/
theorem invalidBase64_gives_400 (env : Env) (greq : GenRequest)
    (rreq : RBRequest) (api api2 : ApiOutcome) :
    (env.hasGoogleKey = true →
      (isValidBase64 (normalizeImageInput greq.topImage).data = false ∨
       isValidBase64 (normalizeImageInput greq.bottomImage).data = false ∨
       (∃ p, personOpt greq = some p ∧ isValidBase64 p.data = false)) →
      (generateOutfitPOST env greq api).status = 400 ∧
      (generateOutfitPOST env greq api).body ≠ "") ∧
    ((env.hasVertex = true ∨ env.hasGoogleKey = true) →
      isValidBase64 (normalizeImageInput rreq.image).data = false →
      (removeBackgroundPOST env rreq api2).status = 400 ∧
      (removeBackgroundPOST env rreq api2).body ≠ "") := by
  constructor
  · intro hk hinv
    unfold generateOutfitPOST
    rw [hk]
    simp only [Bool.not_true, Bool.false_eq_true, if_false]
    split_ifs with h1 h2 h3 h4
    · exact ⟨rfl, by decide⟩
    · exact ⟨rfl, by decide⟩
    · exact ⟨rfl, by decide⟩
    · exact ⟨rfl, by decide⟩
    · exfalso
      rcases hinv with hv | hv | ⟨p, hp, hv⟩
      · exact h2 (by simp [hv])
      · exact h3 (by simp [hv])
      · rw [hp] at h4
        exact h4 (by simp [hv])
  · intro hcfg hinv
    unfold removeBackgroundPOST
    have hcfg2 : (env.hasVertex || env.hasGoogleKey) = true := by
      rcases hcfg with h | h <;> simp [h]
    rw [hcfg2]
    simp only [Bool.not_true, Bool.false_eq_true, if_false]
    split_ifs with h1 h2
    · exact ⟨rfl, by decide⟩
    · exact ⟨rfl, by decide⟩
    · exact absurd (by simp [hinv]) h2

theorem invalidBase64_gives_400_witness :
    (generateOutfitPOST ⟨true, false⟩
        ⟨.obj "!!!" none, .obj "aGVsbG8=" none, none⟩ (.fail "x")).status = 400 ∧
      (generateOutfitPOST ⟨true, false⟩
        ⟨.obj "!!!" none, .obj "aGVsbG8=" none, none⟩ (.fail "x")).body ≠ "" :=
  (invalidBase64_gives_400 ⟨true, false⟩
      ⟨.obj "!!!" none, .obj "aGVsbG8=" none, none⟩
      ⟨.obj "???" none, none, none⟩ (.fail "x") (.fail "x")).1
    rfl (Or.inl (by decide))

/-- C8: once a request has passed validation, a provider response whose
`candidates` field is absent or an empty list makes both endpoints
answer 500 with the no-response-from-the-AI-model message. -/
theorem noCandidates_gives_500 (env : Env) (greq : GenRequest)
    (rreq : RBRequest) (resp : GenResponse)
    (hc : resp.candidates = none ∨ resp.candidates = some []) :
    (env.hasGoogleKey = true →
      isValidBase64 (normalizeImageInput greq.topImage).data = true →
      isValidBase64 (normalizeImageInput greq.bottomImage).data = true →
      (∀ p, personOpt greq = some p → isValidBase64 p.data = true) →
      generateOutfitPOST env greq (.ok resp) = ⟨500, noCandidatesMsg⟩) ∧
    ((env.hasVertex = true ∨ env.hasGoogleKey = true) →
      isValidBase64 (normalizeImageInput rreq.image).data = true →
      removeBackgroundPOST env rreq (.ok resp) = ⟨500, noCandidatesMsg⟩) := by
  have hemp : isValidBase64 "" = false := by decide
  have hproc : processResponseGO resp = ⟨500, noCandidatesMsg⟩ := by
    unfold processResponseGO
    rcases hc with h | h <;> rw [h]
  have hprocRB : ∀ bt, processResponseRB bt resp = ⟨500, noCandidatesMsg⟩ := by
    intro bt
    unfold processResponseRB
    rcases hc with h | h <;> rw [h]
  constructor
  · intro hk htop hbot hperson
    unfold generateOutfitPOST
    rw [hk]
    simp only [Bool.not_true, Bool.false_eq_true, if_false]
    split_ifs with h1 h2 h3 h4
    · exfalso
      simp only [decide_eq_true_eq, Bool.or_eq_true] at h1
      rcases h1 with h | h
      · rw [h] at htop
        rw [htop] at hemp
        exact Bool.true_eq_false.mp hemp
      · rw [h] at hbot
        rw [hbot] at hemp
        exact Bool.true_eq_false.mp hemp
    · rw [htop] at h2
      simp at h2
    · rw [hbot] at h3
      simp at h3
    · exfalso
      rcases hps : personOpt greq with _ | p
      · rw [hps] at h4
        simp at h4
      · rw [hps] at h4
        have h5 : (!isValidBase64 p.data) = true := h4
        rw [hperson p hps] at h5
        simp at h5
    · exact hproc
  · intro hcfg himg
    unfold removeBackgroundPOST
    have hcfg2 : (env.hasVertex || env.hasGoogleKey) = true := by
      rcases hcfg with h | h <;> simp [h]
    rw [hcfg2]
    simp only [Bool.not_true, Bool.false_eq_true, if_false]
    split_ifs with h1 h2
    · rw [h1] at himg
      rw [himg] at hemp
      exact absurd hemp (by simp)
    · rw [himg] at h2
      simp at h2
    · exact hprocRB _

theorem noCandidates_gives_500_witness :
    generateOutfitPOST ⟨true, false⟩
        ⟨.obj "aGVsbG8=" none, .obj "aGVsbG8=" none, none⟩ (.ok ⟨none⟩) =
      ⟨500, noCandidatesMsg⟩ :=
  (noCandidates_gives_500 ⟨true, false⟩
      ⟨.obj "aGVsbG8=" none, .obj "aGVsbG8=" none, none⟩
      ⟨.obj "aGVsbG8=" none, none, none⟩ ⟨none⟩ (Or.inl rfl)).1
    rfl (by decide) (by decide) (fun p hp => by simp [personOpt] at hp)

theorem validateMimeType_cases (m : String) :
    validateMimeType m = "image/jpeg" ∨ validateMimeType m = "image/png" ∨
      validateMimeType m = "image/webp" := by
  unfold validateMimeType supportedMimeTypes
  by_cases h1 : m = "image/jpg"
  · simp [h1]
  · rw [if_neg h1]
    by_cases e1 : m = "image/jpeg"
    · simp [e1]
    by_cases e3 : m = "image/png"
    · simp [e3]
    by_cases e4 : m = "image/webp"
    · simp [e4]
    · have hc : (["image/jpeg", "image/jpg", "image/png", "image/webp"] :
          List String).contains m = false := by
        simp
        tauto
      simp only [hc]
      simp

/-- C10: every MIME type forwarded to the provider by either endpoint
is one of `image/jpeg`, `image/png`, `image/webp`: `image/jpg` is
normalized to `image/jpeg`, any other unsupported declared MIME type is
silently replaced by `image/jpeg`, a missing declared MIME type
defaults to `image/jpeg`, and the MIME validation has no rejection
path. -/
theorem forwardedMime_supported (m d : String) (greq : GenRequest)
    (rreq : RBRequest) :
    (validateMimeType m = "image/jpeg" ∨ validateMimeType m = "image/png" ∨
      validateMimeType m = "image/webp") ∧
    validateMimeType "image/jpg" = "image/jpeg" ∧
    (m ∉ supportedMimeTypes → validateMimeType m = "image/jpeg") ∧
    (normalizeImageInput (.obj d none)).mimeType = "image/jpeg" ∧
    (∀ mt ∈ (buildContentsGO greq).filterMap (fun p => p.inlineData.map Prod.snd),
      mt = "image/jpeg" ∨ mt = "image/png" ∨ mt = "image/webp") ∧
    (∀ mt ∈ (buildContentsRB rreq).filterMap (fun p => p.inlineData.map Prod.snd),
      mt = "image/jpeg" ∨ mt = "image/png" ∨ mt = "image/webp") := by
  refine ⟨validateMimeType_cases m, by decide, fun hnot => ?_, rfl, ?_, ?_⟩
  · unfold validateMimeType
    by_cases h1 : m = "image/jpg"
    · exact absurd (by simp [h1, supportedMimeTypes]) hnot
    · have hc : supportedMimeTypes.contains m = false := by
        unfold supportedMimeTypes at hnot ⊢
        simp at hnot ⊢
        tauto
      rw [if_neg h1]
      simp only [hc]
      simp
  · intro mt hmt
    unfold buildContentsGO at hmt
    rcases hp : personOpt greq with _ | p <;>
      · rw [hp] at hmt
        simp at hmt
        first
        | (rcases hmt with h | h | h <;> (rw [h]; exact validateMimeType_cases _))
        | (rcases hmt with h | h <;> (rw [h]; exact validateMimeType_cases _))
  · intro mt hmt
    unfold buildContentsRB at hmt
    simp at hmt
    rw [hmt]
    exact validateMimeType_cases _

theorem forwardedMime_supported_witness :
    validateMimeType "text/html" = "image/jpeg" :=
  (forwardedMime_supported "text/html" "x" ⟨.str "a", .str "b", none⟩
      ⟨.str "a", none, none⟩).2.2.1 (by decide)
